import Mathlib

/-!
Shallow embedding of the STOMP-style WebSocket client
(`StompWebSocketClient`, src/frontend/src/services/websocket.ts and its
extended variant with market-data channels).  All wire text is modelled as
`List Char`; JavaScript `Map`s are association lists with `Map` semantics
(unique keys, insertion order preserved); callback function references are
modelled by natural-number identities, with a behaviour function
`beh : Nat → Bool` saying whether a given callback throws when invoked.
-/

namespace StompClient

/-- WebSocket.CONNECTING readyState constant. -/
def WS_CONNECTING : Nat := 0

/-- WebSocket.OPEN readyState constant. -/
def WS_OPEN : Nat := 1

/-- WebSocket.CLOSING readyState constant. -/
def WS_CLOSING : Nat := 2

/-- WebSocket.CLOSED readyState constant. -/
def WS_CLOSED : Nat := 3

/-- `maxReconnectAttempts` field (source default 5). -/
def maxReconnectAttempts : Nat := 5

/-- `reconnectDelay` field, base backoff in milliseconds (source default 1000). -/
def reconnectDelay : Nat := 1000

/-- A transport object: its identity and its current readyState. -/
structure Socket where
  id : Nat
  readyState : Nat

/- Association-list model of a JavaScript Map keyed by strings. -/

/-- `Map.get`: first binding of the key, if any. -/
def lookupA {α : Type} : List (List Char × α) → List Char → Option α
  | [], _ => none
  | (k', v) :: rest, k => if k' = k then some v else lookupA rest k

/-- `Map.set`: replace the binding in place, or append a new one. -/
def setA {α : Type} : List (List Char × α) → List Char → α → List (List Char × α)
  | [], k, v => [(k, v)]
  | (k', v') :: rest, k, v =>
      if k' = k then (k, v) :: rest else (k', v') :: setA rest k v

/-- `Map.delete`: remove the binding of the key. -/
def delA {α : Type} (m : List (List Char × α)) (k : List Char) : List (List Char × α) :=
  m.filter (fun p => p.1 != k)

/-- `Map.keys()` in insertion order. -/
def keysA {α : Type} (m : List (List Char × α)) : List (List Char) := m.map Prod.fst

/-- `Array.prototype.splice(indexOf(x), 1)`: drop the first occurrence of `x`
(no-op when absent, exactly as the source's `index > -1` guard yields). -/
def removeFirst : List Nat → Nat → List Nat
  | [], _ => []
  | a :: rest, x => if a = x then rest else a :: removeFirst rest x

/- Character-level modelling of the JavaScript string operations used. -/

/-- `String.prototype.startsWith`. -/
def startsWithC (p cs : List Char) : Bool := List.isPrefixOf p cs

/-- `String.prototype.includes` (substring containment). -/
def hasSub : List Char → List Char → Bool
  | cs, sub =>
    match cs with
    | [] => decide (sub = [])
    | _ :: t => startsWithC sub cs || hasSub t sub

/-- Whitespace removed by `String.prototype.trim` (the characters that can
actually occur in the frames considered). -/
def isSpaceChar (c : Char) : Bool :=
  c = ' ' || c = '\t' || c = '\n' || c = '\r' || c = '\x0b' || c = '\x0c'

/-- `String.prototype.trim`. -/
def trimChars (cs : List Char) : List Char :=
  ((cs.dropWhile isSpaceChar).reverse.dropWhile isSpaceChar).reverse

/-- `String.prototype.split('\n')`: auxiliary accumulator. -/
def splitNlAux : List Char → List Char → List (List Char)
  | cur, [] => [cur.reverse]
  | cur, c :: rest =>
      if c = '\n' then cur.reverse :: splitNlAux [] rest else splitNlAux (c :: cur) rest

/-- `String.prototype.split('\n')`. -/
def splitNl (cs : List Char) : List (List Char) := splitNlAux [] cs

/- JSON values and a model of `JSON.parse` (the subset of the grammar the
frames of this client exercise: objects, arrays, strings with simple escapes,
decimal numbers, `true`/`false`/`null`; like `JSON.parse` it rejects any
non-whitespace trailing input). -/

/-- Parsed JSON value; numbers are kept as an exact mantissa and decimal scale
(`jnum m sc` denotes `m / 10^sc`). -/
inductive Json where
  | jnull : Json
  | jbool : Bool → Json
  | jnum : Int → Nat → Json
  | jstr : List Char → Json
  | jarr : List Json → Json
  | jobj : List (List Char × Json) → Json

/-- JSON whitespace skipping. -/
def skipWs (cs : List Char) : List Char :=
  cs.dropWhile fun c => c = ' ' || c = '\t' || c = '\n' || c = '\r'

/-- Decimal digit test. -/
def isDigitC (c : Char) : Bool := '0' ≤ c && c ≤ '9'

/-- Value of a decimal digit. -/
def digitVal (c : Char) : Nat := c.toNat - '0'.toNat

/-- Read a run of digits, accumulating the value. -/
def parseDigits : List Char → Nat → Nat × List Char
  | [], acc => (acc, [])
  | c :: rest, acc =>
      if isDigitC c then parseDigits rest (acc * 10 + digitVal c) else (acc, c :: rest)

/-- Read a fractional digit run, extending mantissa and scale. -/
def parseFrac : List Char → Nat → Nat → Nat × Nat × List Char
  | [], m, sc => (m, sc, [])
  | c :: rest, m, sc =>
      if isDigitC c then parseFrac rest (m * 10 + digitVal c) (sc + 1) else (m, sc, c :: rest)

/-- Read an unsigned JSON number (integer part, optional fraction). -/
def parseNum : List Char → Option (Nat × Nat × List Char)
  | [] => none
  | c :: rest =>
      if isDigitC c then
        let p := parseDigits (c :: rest) 0
        match p.2 with
        | '.' :: d :: r2 =>
            if isDigitC d then some (parseFrac (d :: r2) p.1 0) else none
        | _ => some (p.1, 0, p.2)
      else none

/-- Read the remainder of a JSON string literal (after the opening quote). -/
def parseStrRest : List Char → Option (List Char × List Char)
  | [] => none
  | '"' :: rest => some ([], rest)
  | '\\' :: c :: rest =>
      let ec : Option Char :=
        if c = '"' then some '"'
        else if c = '\\' then some '\\'
        else if c = '/' then some '/'
        else if c = 'n' then some '\n'
        else if c = 't' then some '\t'
        else if c = 'r' then some '\r'
        else none
      match ec with
      | some e => (parseStrRest rest).map (fun p => (e :: p.1, p.2))
      | none => none
  | c :: rest => (parseStrRest rest).map (fun p => (c :: p.1, p.2))

mutual

/-- Parse one JSON value (fuel-indexed recursive descent). -/
def parseVal : Nat → List Char → Option (Json × List Char)
  | 0, _ => none
  | fuel + 1, cs =>
    match skipWs cs with
    | '"' :: rest =>
        match parseStrRest rest with
        | some p => some (Json.jstr p.1, p.2)
        | none => none
    | '{' :: rest =>
        match skipWs rest with
        | '}' :: r2 => some (Json.jobj [], r2)
        | _ => parseFields fuel rest []
    | '[' :: rest =>
        match skipWs rest with
        | ']' :: r2 => some (Json.jarr [], r2)
        | _ => parseElems fuel rest []
    | 't' :: 'r' :: 'u' :: 'e' :: rest => some (Json.jbool true, rest)
    | 'f' :: 'a' :: 'l' :: 's' :: 'e' :: rest => some (Json.jbool false, rest)
    | 'n' :: 'u' :: 'l' :: 'l' :: rest => some (Json.jnull, rest)
    | '-' :: rest =>
        match parseNum rest with
        | some (m, sc, r) => some (Json.jnum (-(m : Int)) sc, r)
        | none => none
    | c :: rest =>
        if isDigitC c then
          match parseNum (c :: rest) with
          | some (m, sc, r) => some (Json.jnum (m : Int) sc, r)
          | none => none
        else none
    | [] => none

/-- Parse the members of a JSON object (after `{`). -/
def parseFields : Nat → List Char → List (List Char × Json) → Option (Json × List Char)
  | 0, _, _ => none
  | fuel + 1, cs, acc =>
    match skipWs cs with
    | '"' :: rest =>
        match parseStrRest rest with
        | some kp =>
            match skipWs kp.2 with
            | ':' :: r2 =>
                match parseVal fuel r2 with
                | some vp =>
                    match skipWs vp.2 with
                    | ',' :: r4 => parseFields fuel r4 (acc ++ [(kp.1, vp.1)])
                    | '}' :: r4 => some (Json.jobj (acc ++ [(kp.1, vp.1)]), r4)
                    | _ => none
                | none => none
            | _ => none
        | none => none
    | _ => none

/-- Parse the elements of a JSON array (after `[`). -/
def parseElems : Nat → List Char → List Json → Option (Json × List Char)
  | 0, _, _ => none
  | fuel + 1, cs, acc =>
    match parseVal fuel cs with
    | some vp =>
        match skipWs vp.2 with
        | ',' :: r2 => parseElems fuel r2 (acc ++ [vp.1])
        | ']' :: r2 => some (Json.jarr (acc ++ [vp.1]), r2)
        | _ => none
    | none => none

end

/-- Model of `JSON.parse`: parse a value, then require only whitespace to
remain (so e.g. a trailing NUL byte makes the whole parse fail, exactly as
`JSON.parse` raises a `SyntaxError`). -/
def jsonParse (cs : List Char) : Option Json :=
  match parseVal (cs.length + 1) cs with
  | some p => if skipWs p.2 = [] then some p.1 else none
  | none => none

/- Wire frames sent by the client.  Each constructor corresponds to one of
the template strings in the source; `wire` renders exactly that text. -/

/-- An outbound frame, as built at the source's `ws.send` call sites. -/
inductive OutFrame where
  | connectF : OutFrame
  | subscribeF : Nat → List Char → OutFrame
  | unsubscribeF : Nat → OutFrame
  | sendF : List Char → List Char → OutFrame
  | disconnectF : OutFrame

/-- The exact wire text of each outbound frame (the source template strings). -/
def OutFrame.wire : OutFrame → String
  | .connectF => "CONNECT\naccept-version:1.2,2.0\n\n\x00"
  | .subscribeF i d =>
      "SUBSCRIBE\nid:" ++ toString i ++ "\ndestination:" ++ String.mk d ++ "\nack:auto\n\n\x00"
  | .unsubscribeF i => "UNSUBSCRIBE\nid:" ++ toString i ++ "\n\n\x00"
  | .sendF d b =>
      "SEND\ndestination:" ++ String.mk d ++ "\ncontent-type:application/json\ncontent-length:"
        ++ toString b.length ++ "\n\n" ++ String.mk b ++ "\x00"
  | .disconnectF => "DISCONNECT\n\n\x00"

/-- One observable effect of a step: a frame handed to `ws.send`, a
`setTimeout` registration, or the invocation of a subscriber callback. -/
inductive Eff where
  | sent : OutFrame → Eff
  | timerSet : Nat → Eff
  | invoke : Nat → Json → Eff

/-- The mutable fields of `StompWebSocketClient`, plus bookkeeping for
constructed transports and pending timers (both `setTimeout` call sites
run `connectInternal`; the source never cancels a timer). -/
structure ClientState where
  ws : Option Socket
  reconnectAttempts : Nat
  callbacks : List (List Char × List Nat)
  marketCallbacks : List (List Char × List Nat)
  depthCallbacks : List (List Char × List Nat)
  lastTradeCallbacks : List (List Char × List Nat)
  subscriptions : List (List Char × Nat)
  subscriptionCounter : Nat
  connected : Bool
  nextSocketId : Nat
  pendingTimers : List Nat
  openTransports : List Nat

/-- Constructor state of the client. -/
def initState : ClientState :=
  { ws := none, reconnectAttempts := 0, callbacks := [], marketCallbacks := [],
    depthCallbacks := [], lastTradeCallbacks := [], subscriptions := [],
    subscriptionCounter := 0, connected := false, nextSocketId := 0,
    pendingTimers := [], openTransports := [] }

/-- `ws?.readyState === WebSocket.OPEN` for a transport handle. -/
def wsOpen : Option Socket → Bool
  | some w => w.readyState == WS_OPEN
  | none => false

/-- `sendConnect`. -/
def sendConnect (s : ClientState) : ClientState × List Eff :=
  if wsOpen s.ws then (s, [Eff.sent OutFrame.connectF]) else (s, [])

/-- `connectInternal`: constructs a new WebSocket (in the CONNECTING state)
and overwrites `this.ws` without closing the previous transport; the handler
assignments have no immediate effect. -/
def connectInternal (s : ClientState) : ClientState × List Eff :=
  ({ s with ws := some ⟨s.nextSocketId, WS_CONNECTING⟩,
            nextSocketId := s.nextSocketId + 1,
            openTransports := s.openTransports ++ [s.nextSocketId] }, [])

/-- `connect`: no-op when `ws?.readyState === OPEN || connected`, otherwise
schedules `connectInternal` after 500 ms. -/
def connect (s : ClientState) : ClientState × List Eff :=
  if wsOpen s.ws || s.connected then (s, [])
  else ({ s with pendingTimers := s.pendingTimers ++ [500] }, [Eff.timerSet 500])

/-- `attemptReconnect`: while under the bound, increment the counter and
schedule `connectInternal` after `reconnectDelay * 2^(attempts-1)` ms. -/
def attemptReconnect (s : ClientState) : ClientState × List Eff :=
  if s.reconnectAttempts < maxReconnectAttempts then
    let attempts := s.reconnectAttempts + 1
    let delay := reconnectDelay * 2 ^ (attempts - 1)
    ({ s with reconnectAttempts := attempts,
              pendingTimers := s.pendingTimers ++ [delay] }, [Eff.timerSet delay])
  else (s, [])

/-- `subscribeToDestination`. -/
def subscribeToDestination (s : ClientState) (destination : List Char) :
    ClientState × List Eff :=
  if (lookupA s.subscriptions destination).isSome then (s, [])
  else
    let counter := s.subscriptionCounter + 1
    let subId := counter
    let s1 := { s with subscriptionCounter := counter,
                       subscriptions := setA s.subscriptions destination subId }
    if wsOpen s1.ws then (s1, [Eff.sent (OutFrame.subscribeF subId destination)])
    else (s1, [])

/-- One `for (const destination of m.keys())` loop of `resubscribeAll`. -/
def subAllKeys : ClientState → List (List Char) → List Eff → ClientState × List Eff
  | s, [], acc => (s, acc)
  | s, k :: rest, acc =>
      let r := subscribeToDestination s k
      subAllKeys r.1 rest (acc ++ r.2)

/-- `resubscribeAll`: iterate the four callback registries in order. -/
def resubscribeAll (s : ClientState) : ClientState × List Eff :=
  let r1 := subAllKeys s (keysA s.callbacks) []
  let r2 := subAllKeys r1.1 (keysA r1.1.marketCallbacks) r1.2
  let r3 := subAllKeys r2.1 (keysA r2.1.depthCallbacks) r2.2
  subAllKeys r3.1 (keysA r3.1.lastTradeCallbacks) r3.2

/-- The account-update destination template. -/
def destOf (accountKey : List Char) : List Char :=
  "/account/".data ++ accountKey ++ "/updates".data

/-- The market-depth destination template. -/
def depthDestOf (instrumentKey : List Char) : List Char :=
  "/markets/".data ++ instrumentKey ++ "/depth".data

/-- The last-trade destination template. -/
def lastTradeDestOf (instrumentKey : List Char) : List Char :=
  "/markets/".data ++ instrumentKey ++ "/last_trade".data

/-- The registration step of `subscribe`: create the list if absent, then
push the callback. -/
def addCb (s : ClientState) (destination : List Char) (cb : Nat) : ClientState :=
  { s with callbacks := setA s.callbacks destination ((lookupA s.callbacks destination).getD [] ++ [cb]) }

/-- `subscribe(accountKey, callback)`. -/
def subscribe (s : ClientState) (accountKey : List Char) (cb : Nat) :
    ClientState × List Eff :=
  let destination := destOf accountKey
  let s1 := addCb s destination cb
  if s1.connected && wsOpen s1.ws then subscribeToDestination s1 destination
  else (s1, [])

/-- `unsubscribe(accountKey, callback)`; the `if (subId && ...)` truthiness
test is the conjunction `subId ≠ 0 ∧ socket open`. -/
def unsubscribe (s : ClientState) (accountKey : List Char) (cb : Nat) :
    ClientState × List Eff :=
  let destination := destOf accountKey
  match lookupA s.callbacks destination with
  | none => (s, [])
  | some l =>
      let l1 := removeFirst l cb
      if l1 = [] then
        let s1 := { s with callbacks := delA s.callbacks destination }
        match lookupA s1.subscriptions destination with
        | some subId =>
            if subId ≠ 0 ∧ wsOpen s1.ws then
              ({ s1 with subscriptions := delA s1.subscriptions destination },
               [Eff.sent (OutFrame.unsubscribeF subId)])
            else (s1, [])
        | none => (s1, [])
      else ({ s with callbacks := setA s.callbacks destination l1 }, [])

/-- `subscribeToMarketData(instrumentKey, depthCallback, lastTradeCallback)`. -/
def subscribeToMarketData (s : ClientState) (instrumentKey : List Char)
    (dcb lcb : Nat) : ClientState × List Eff :=
  let dd := depthDestOf instrumentKey
  let ld := lastTradeDestOf instrumentKey
  let dl := (lookupA s.depthCallbacks dd).getD [] ++ [dcb]
  let s1 := { s with depthCallbacks := setA s.depthCallbacks dd dl }
  let ll := (lookupA s1.lastTradeCallbacks ld).getD [] ++ [lcb]
  let s2 := { s1 with lastTradeCallbacks := setA s1.lastTradeCallbacks ld ll }
  if s2.connected && wsOpen s2.ws then
    let r1 := subscribeToDestination s2 dd
    let r2 := subscribeToDestination r1.1 ld
    (r2.1, r1.2 ++ r2.2)
  else (s2, [])

/-- `unsubscribeFromMarketData(instrumentKey, depthCallback, lastTradeCallback)`. -/
def unsubscribeFromMarketData (s : ClientState) (instrumentKey : List Char)
    (dcb lcb : Nat) : ClientState × List Eff :=
  let dd := depthDestOf instrumentKey
  let ld := lastTradeDestOf instrumentKey
  let r1 : ClientState × List Eff :=
    match lookupA s.depthCallbacks dd with
    | none => (s, [])
    | some l =>
        let l1 := removeFirst l dcb
        if l1 = [] then
          let s1 := { s with depthCallbacks := delA s.depthCallbacks dd }
          match lookupA s1.subscriptions dd with
          | some subId =>
              if subId ≠ 0 ∧ wsOpen s1.ws then
                ({ s1 with subscriptions := delA s1.subscriptions dd },
                 [Eff.sent (OutFrame.unsubscribeF subId)])
              else (s1, [])
          | none => (s1, [])
        else ({ s with depthCallbacks := setA s.depthCallbacks dd l1 }, [])
  let s' := r1.1
  let r2 : ClientState × List Eff :=
    match lookupA s'.lastTradeCallbacks ld with
    | none => (s', [])
    | some l =>
        let l1 := removeFirst l lcb
        if l1 = [] then
          let s1 := { s' with lastTradeCallbacks := delA s'.lastTradeCallbacks ld }
          match lookupA s1.subscriptions ld with
          | some subId =>
              if subId ≠ 0 ∧ wsOpen s1.ws then
                ({ s1 with subscriptions := delA s1.subscriptions ld },
                 [Eff.sent (OutFrame.unsubscribeF subId)])
              else (s1, [])
          | none => (s1, [])
        else ({ s' with lastTradeCallbacks := setA s'.lastTradeCallbacks ld l1 }, [])
  (r2.1, r1.2 ++ r2.2)

/-- `sendRequest(accountKey, scope)`. -/
def sendRequest (s : ClientState) (accountKey : List Char) (scopeBody : List Char) :
    ClientState × List Eff :=
  if !s.connected || !wsOpen s.ws then (s, [])
  else (s, [Eff.sent (OutFrame.sendF (destOf accountKey) scopeBody)])

/-- `callbacks.forEach(callback => callback(data))`: a throwing callback
(`beh c = true`) is still invoked, but the exception propagates out of the
`forEach`, so the remaining callbacks are skipped (the exception is then
caught by `handleStompMessage`'s `try`/`catch`). -/
def runCallbacks (beh : Nat → Bool) : List Nat → Json → List Eff
  | [], _ => []
  | c :: rest, d => Eff.invoke c d :: (if beh c then [] else runCallbacks beh rest d)

/-- `notifyCallbacks`. -/
def notifyCallbacks (beh : Nat → Bool) (s : ClientState) (destination : List Char)
    (d : Json) : List Eff :=
  match lookupA s.callbacks destination with
  | some cbs => runCallbacks beh cbs d
  | none => []

/-- `notifyMarketCallbacks`. -/
def notifyMarketCallbacks (beh : Nat → Bool) (s : ClientState) (destination : List Char)
    (d : Json) : List Eff :=
  match lookupA s.marketCallbacks destination with
  | some cbs => runCallbacks beh cbs d
  | none => []

/-- `notifyDepthCallbacks`. -/
def notifyDepthCallbacks (beh : Nat → Bool) (s : ClientState) (destination : List Char)
    (d : Json) : List Eff :=
  match lookupA s.depthCallbacks destination with
  | some cbs => runCallbacks beh cbs d
  | none => []

/-- `notifyLastTradeCallbacks`. -/
def notifyLastTradeCallbacks (beh : Nat → Bool) (s : ClientState) (destination : List Char)
    (d : Json) : List Eff :=
  match lookupA s.lastTradeCallbacks destination with
  | some cbs => runCallbacks beh cbs d
  | none => []

/-- The scanning state of `handleStompMessage`'s `for` loop. -/
structure ScanSt where
  destination : List Char
  body : List Char
  inBody : Bool

/-- The header constant `'destination:'` (12 characters). -/
def destHdr : List Char := "destination:".data

/-- One iteration of `handleStompMessage`'s line loop. -/
def scanLine (st : ScanSt) (line : List Char) : ScanSt :=
  if startsWithC destHdr line then
    { st with destination := trimChars (line.drop destHdr.length) }
  else if line = [] then { st with inBody := true }
  else if st.inBody ∧ line ≠ ['\x00'] then { st with body := st.body ++ line }
  else st

/-- The line scan of `handleStompMessage`. -/
def scanFrame (cs : List Char) : ScanSt :=
  (splitNl cs).foldl scanLine ⟨[], [], false⟩

/-- The classify-parse-dispatch block of `handleStompMessage` (the
`if (destination && body) try ... catch` part); any parse failure or
callback exception is swallowed, and the state is never modified. -/
def dispatchFrame (beh : Nat → Bool) (s : ClientState) (destination body : List Char) :
    ClientState × List Eff :=
  if destination ≠ [] ∧ body ≠ [] then
    if hasSub destination "/markets/".data ∧ hasSub destination "/depth".data then
      match jsonParse body with
      | some j => (s, notifyDepthCallbacks beh s destination j)
      | none => (s, [])
    else if hasSub destination "/markets/".data ∧ hasSub destination "/last_trade".data then
      match jsonParse body with
      | some j => (s, notifyLastTradeCallbacks beh s destination j)
      | none => (s, [])
    else if startsWithC "/market/".data destination then
      match jsonParse body with
      | some j => (s, notifyMarketCallbacks beh s destination j)
      | none => (s, [])
    else
      match jsonParse body with
      | some j => (s, notifyCallbacks beh s destination j)
      | none => (s, [])
  else (s, [])

/-- `handleStompMessage`: scan lines, then classify and dispatch. -/
def handleStompMessage (beh : Nat → Bool) (s : ClientState) (message : List Char) :
    ClientState × List Eff :=
  dispatchFrame beh s (scanFrame message).destination (scanFrame message).body

/-- `parseMessage`: CONNECTED flips the flag, zeroes the attempt counter and
resubscribes; MESSAGE is dispatched; anything else goes to the JSON fallback,
which only inspects the text and has no observable effect. -/
def parseMessage (beh : Nat → Bool) (s : ClientState) (message : List Char) :
    ClientState × List Eff :=
  if startsWithC "CONNECTED".data message then
    resubscribeAll { s with connected := true, reconnectAttempts := 0 }
  else if startsWithC "MESSAGE".data message then
    handleStompMessage beh s message
  else (s, [])

/-- `disconnect`. -/
def disconnect (s : ClientState) : ClientState × List Eff :=
  let r : ClientState × List Eff :=
    match s.ws with
    | some w =>
        let effs := if s.connected ∧ w.readyState = WS_OPEN
                    then [Eff.sent OutFrame.disconnectF] else []
        ({ s with ws := none,
                  openTransports := s.openTransports.filter (fun i => i != w.id) }, effs)
    | none => (s, [])
  ({ r.1 with callbacks := [], marketCallbacks := [], depthCallbacks := [],
              lastTradeCallbacks := [], subscriptions := [],
              reconnectAttempts := 0, connected := false }, r.2)

/-- `isConnected`. -/
def isConnected (s : ClientState) : Bool := s.connected && wsOpen s.ws

/-- The events driving a client: the public API calls and the asynchronous
transport/timer events.  Transport events act on the current socket. -/
inductive Event where
  | connectE : Event
  | disconnectE : Event
  | subscribeE : List Char → Nat → Event
  | unsubscribeE : List Char → Nat → Event
  | subscribeMarketE : List Char → Nat → Nat → Event
  | unsubscribeMarketE : List Char → Nat → Nat → Event
  | socketOpenE : Event
  | socketCloseE : Event
  | messageE : List Char → Event
  | timerFireE : Event

/-- One step of the client: API calls run the corresponding method; `onopen`
clears the flag and sends CONNECT; `onclose` clears the flag and calls
`attemptReconnect`; a message is handled only on an open socket; a firing
timer runs `connectInternal` (both `setTimeout` call sites do). -/
def step (beh : Nat → Bool) (e : Event) (s : ClientState) : ClientState × List Eff :=
  match e with
  | .connectE => connect s
  | .disconnectE => disconnect s
  | .subscribeE k c => subscribe s k c
  | .unsubscribeE k c => unsubscribe s k c
  | .subscribeMarketE k d l => subscribeToMarketData s k d l
  | .unsubscribeMarketE k d l => unsubscribeFromMarketData s k d l
  | .socketOpenE =>
      match s.ws with
      | some w =>
          if w.readyState = WS_CONNECTING then
            sendConnect { s with ws := some ⟨w.id, WS_OPEN⟩, connected := false }
          else (s, [])
      | none => (s, [])
  | .socketCloseE =>
      match s.ws with
      | some w =>
          if w.readyState ≠ WS_CLOSED then
            attemptReconnect
              { s with ws := some ⟨w.id, WS_CLOSED⟩,
                       openTransports := s.openTransports.filter (fun i => i != w.id),
                       connected := false }
          else (s, [])
      | none => (s, [])
  | .messageE w => if wsOpen s.ws then parseMessage beh s w else (s, [])
  | .timerFireE =>
      match s.pendingTimers with
      | [] => (s, [])
      | _ :: rest => connectInternal { s with pendingTimers := rest }

/-- Run a trace from a state, accumulating effects. -/
def runFrom (beh : Nat → Bool) : ClientState → List Eff → List Event → ClientState × List Eff
  | s, effs, [] => (s, effs)
  | s, effs, e :: rest =>
      let r := step beh e s
      runFrom beh r.1 (effs ++ r.2) rest

/-- Run a trace from the constructor state. -/
def runTrace (beh : Nat → Bool) (t : List Event) : ClientState × List Eff :=
  runFrom beh initState [] t

/-- The no-callback-throws behaviour. -/
def behNone : Nat → Bool := fun _ => false

/-- Behaviour in which exactly callback 1 throws. -/
def behThrow1 : Nat → Bool := fun c => c == 1

/-- Number of SUBSCRIBE frames emitted for a given destination. -/
def countS (d : List Char) : List Eff → Nat
  | [] => 0
  | Eff.sent (OutFrame.subscribeF _ d2) :: rest => (if d2 = d then 1 else 0) + countS d rest
  | _ :: rest => countS d rest

/-- Number of UNSUBSCRIBE frames emitted. -/
def countU : List Eff → Nat
  | [] => 0
  | Eff.sent (OutFrame.unsubscribeF _) :: rest => 1 + countU rest
  | _ :: rest => countU rest

/-- The event alphabet of the at-most-one-subscription property: sequences of
subscribe/unsubscribe calls on the one fixed account destination, interleaved
with arbitrary transport events (no explicit disconnect() call and no
market-data calls, which the property does not range over). -/
def c7Allowed (k : List Char) : Event → Bool
  | .subscribeE k2 _ => k2 == k
  | .unsubscribeE k2 _ => k2 == k
  | .disconnectE => false
  | .subscribeMarketE _ _ _ => false
  | .unsubscribeMarketE _ _ _ => false
  | _ => true

/-- Inductive invariant for the at-most-one-subscription property: the
SUBSCRIBE/UNSUBSCRIBE balance equals the subscription-map indicator, the
account registry holds at most the fixed destination, and the market
registries are untouched. -/
def c7Inv (k : List Char) (s : ClientState) (effs : List Eff) : Prop :=
  countS (destOf k) effs
      = countU effs + (if (lookupA s.subscriptions (destOf k)).isSome then 1 else 0)
    ∧ (s.callbacks = [] ∨ ∃ l, s.callbacks = [(destOf k, l)])
    ∧ s.marketCallbacks = [] ∧ s.depthCallbacks = [] ∧ s.lastTradeCallbacks = []

/-- A CONNECTED frame as received from the server. -/
def connectedWire : List Char := "CONNECTED\n\n\x00".data

/-- Reaches a connected session with one callback subscribed, then a socket
close and a reconnect up to the point where the server's CONNECTED is due. -/
def c1Trace : List Event :=
  [.connectE, .timerFireE, .socketOpenE, .messageE connectedWire,
   .subscribeE ("ACC1".data) 7, .socketCloseE, .timerFireE, .socketOpenE]

/-- The state just before the reconnect CONNECTED frame arrives. -/
def c1State : ClientState := (runTrace behNone c1Trace).1

/-- `connect()` then transport close, scheduling a reconnect timer, then
`disconnect()`. -/
def c2TraceA : List Event :=
  [.connectE, .timerFireE, .socketOpenE, .socketCloseE, .disconnectE]

/-- The same trace, followed by the pending reconnect timer firing. -/
def c2TraceB : List Event := c2TraceA ++ [.timerFireE]

/-- A MESSAGE frame whose single body line is followed by a sentinel line. -/
def c3Wire : List Char :=
  ("MESSAGE\ndestination:/account/ACC1/updates\n\n\x7b\"a\":1\x7d\n\x00").data

/-- The JSON object carried by `c3Wire`. -/
def c3Json : Json := Json.jobj [("a".data, Json.jnum 1 0)]

/-- Reaches a connected session with two callbacks on the same destination. -/
def c3Trace : List Event :=
  [.connectE, .timerFireE, .socketOpenE, .messageE connectedWire,
   .subscribeE ("ACC1".data) 1, .subscribeE ("ACC1".data) 2]

/-- The state with callbacks 1 and 2 registered for ACC1. -/
def c3State : ClientState := (runTrace behThrow1 c3Trace).1

/-- A state with nonzero reconnect counter (one close has happened). -/
def c5Trace : List Event := [.connectE, .timerFireE, .socketOpenE, .socketCloseE]

/-- The state after `c5Trace`: reconnect counter 1. -/
def c5State : ClientState := (runTrace behNone c5Trace).1

/-- `connect()` and the 500 ms timer firing: the Opening state. -/
def c6Trace : List Event := [.connectE, .timerFireE]

/-- The Opening state: a transport in CONNECTING, flag down. -/
def c6State : ClientState := (runTrace behNone c6Trace).1

/-- A state whose `connected` flag is set. -/
def connFlagState : ClientState := { initState with connected := true }

/-- A witness trace for the subscribe/unsubscribe balance. -/
def c7TraceEx : List Event :=
  [.connectE, .timerFireE, .socketOpenE, .messageE connectedWire,
   .subscribeE ("ACC1".data) 7, .unsubscribeE ("ACC1".data) 7,
   .subscribeE ("ACC1".data) 8]

/-- Connected session, one subscribed callback, then the socket closes. -/
def c8Trace : List Event :=
  [.connectE, .timerFireE, .socketOpenE, .messageE connectedWire,
   .subscribeE ("ACC1".data) 7, .socketCloseE]

/-- The state after `c8Trace`: one callback, a live subscription entry, and a
closed socket. -/
def c8State : ClientState := (runTrace behNone c8Trace).1

/-- The state just before the close in `c8Trace`: one callback, a live
subscription entry, and an open socket. -/
def c8OpenState : ClientState := (runTrace behNone (c8Trace.take 5)).1

/-- The body of the account-update MESSAGE of the dispatch property. -/
def c9Body : List Char :=
  ("\x7b\"balance\":\x7b\"account_key\":\"ACC1\",\"cash\":100.5,\"version_number\":3\x7d\x7d").data

/-- The JSON value `JSON.parse` yields for `c9Body` (100.5 is the exact
decimal 1005/10). -/
def c9Json : Json :=
  Json.jobj [("balance".data,
    Json.jobj [("account_key".data, Json.jstr "ACC1".data),
               ("cash".data, Json.jnum 1005 1),
               ("version_number".data, Json.jnum 3 0)])]

/-- The MESSAGE frame with the sentinel byte on its own line (preceded by a
newline). -/
def c9WireGood : List Char :=
  ("MESSAGE\ndestination:/account/ACC1/updates\n\n").data ++ c9Body ++ ("\n\x00").data

/-- The MESSAGE frame terminated exactly as the spec's wire grammar and the
client's own encoder write it: sentinel byte immediately after the body. -/
def c9WireBad : List Char :=
  ("MESSAGE\ndestination:/account/ACC1/updates\n\n").data ++ c9Body ++ ("\x00").data

/-- Connected session with callbacks 1,2 for ACC1 and callback 3 for ACC2. -/
def c9Trace : List Event :=
  [.connectE, .timerFireE, .socketOpenE, .messageE connectedWire,
   .subscribeE ("ACC1".data) 1, .subscribeE ("ACC1".data) 2,
   .subscribeE ("ACC2".data) 3]

/-- The state after `c9Trace`. -/
def c9State : ClientState := (runTrace behNone c9Trace).1

/-- A state whose reconnect counter is 1. -/
def stateA1 : ClientState := { initState with reconnectAttempts := 1 }

/- Helper lemmas. -/

theorem lookupA_setA_self {α : Type} (m : List (List Char × α)) (k : List Char) (v : α) :
    lookupA (setA m k v) k = some v := by
  induction m with
  | nil => simp [setA, lookupA]
  | cons p rest ih =>
      by_cases h : p.1 = k
      · simp [setA, lookupA, h]
      · simp [setA, lookupA, h, ih]

theorem lookupA_delA_self {α : Type} (m : List (List Char × α)) (k : List Char) :
    lookupA (delA m k) k = none := by
  induction m with
  | nil => rfl
  | cons p rest ih =>
      by_cases h : p.1 = k
      · have hb : (p.1 != k) = false := by simp [h]
        simpa [delA, List.filter_cons, hb] using ih
      · have hb : (p.1 != k) = true := by simp [h]
        simpa [delA, List.filter_cons, hb, lookupA, h] using ih

theorem countS_append (d : List Char) (a b : List Eff) :
    countS d (a ++ b) = countS d a + countS d b := by
  induction a with
  | nil => simp [countS]
  | cons e rest ih =>
      match e with
      | Eff.sent (OutFrame.subscribeF i d2) => simp [countS, ih]; omega
      | Eff.sent OutFrame.connectF => simp [countS, ih]
      | Eff.sent (OutFrame.unsubscribeF i) => simp [countS, ih]
      | Eff.sent (OutFrame.sendF x y) => simp [countS, ih]
      | Eff.sent OutFrame.disconnectF => simp [countS, ih]
      | Eff.timerSet n => simp [countS, ih]
      | Eff.invoke c j => simp [countS, ih]

theorem countU_append (a b : List Eff) :
    countU (a ++ b) = countU a + countU b := by
  induction a with
  | nil => simp [countU]
  | cons e rest ih =>
      match e with
      | Eff.sent (OutFrame.subscribeF i d2) => simp [countU, ih]
      | Eff.sent OutFrame.connectF => simp [countU, ih]
      | Eff.sent (OutFrame.unsubscribeF i) => simp [countU, ih]; omega
      | Eff.sent (OutFrame.sendF x y) => simp [countU, ih]
      | Eff.sent OutFrame.disconnectF => simp [countU, ih]
      | Eff.timerSet n => simp [countU, ih]
      | Eff.invoke c j => simp [countU, ih]

theorem countS_runCallbacks (d : List Char) (beh : Nat → Bool) (cbs : List Nat) (j : Json) :
    countS d (runCallbacks beh cbs j) = 0 := by
  induction cbs with
  | nil => simp [runCallbacks, countS]
  | cons c rest ih =>
      by_cases h : beh c <;> simp [runCallbacks, countS, h, ih]

theorem countU_runCallbacks (beh : Nat → Bool) (cbs : List Nat) (j : Json) :
    countU (runCallbacks beh cbs j) = 0 := by
  induction cbs with
  | nil => simp [runCallbacks, countU]
  | cons c rest ih =>
      by_cases h : beh c <;> simp [runCallbacks, countU, h, ih]

/-- `runCallbacks` under a never-throwing behaviour invokes every callback
in registration order. -/
theorem runCallbacks_all (beh : Nat → Bool) (h : ∀ c, beh c = false)
    (cbs : List Nat) (j : Json) :
    runCallbacks beh cbs j = cbs.map (fun c => Eff.invoke c j) := by
  induction cbs with
  | nil => rfl
  | cons c rest ih => simp [runCallbacks, h c, ih]

theorem dispatchFrame_fst (beh : Nat → Bool) (s : ClientState) (d b : List Char) :
    (dispatchFrame beh s d b).1 = s := by
  unfold dispatchFrame
  repeat' split
  all_goals rfl

/-- `handleStompMessage` never modifies the client state. -/
theorem handleStomp_fst (beh : Nat → Bool) (s : ClientState) (m : List Char) :
    (handleStompMessage beh s m).1 = s :=
  dispatchFrame_fst beh s _ _

theorem countS_dispatchFrame (d : List Char) (beh : Nat → Bool) (s : ClientState)
    (dst b : List Char) : countS d (dispatchFrame beh s dst b).2 = 0 := by
  unfold dispatchFrame notifyCallbacks notifyMarketCallbacks
    notifyDepthCallbacks notifyLastTradeCallbacks
  repeat' split
  all_goals simp [countS, countS_runCallbacks]

/-- `handleStompMessage` emits no SUBSCRIBE frame. -/
theorem countS_handleStomp (d : List Char) (beh : Nat → Bool) (s : ClientState)
    (m : List Char) : countS d (handleStompMessage beh s m).2 = 0 :=
  countS_dispatchFrame d beh s _ _

theorem countU_dispatchFrame (beh : Nat → Bool) (s : ClientState)
    (dst b : List Char) : countU (dispatchFrame beh s dst b).2 = 0 := by
  unfold dispatchFrame notifyCallbacks notifyMarketCallbacks
    notifyDepthCallbacks notifyLastTradeCallbacks
  repeat' split
  all_goals simp [countU, countU_runCallbacks]

/-- `handleStompMessage` emits no UNSUBSCRIBE frame. -/
theorem countU_handleStomp (beh : Nat → Bool) (s : ClientState)
    (m : List Char) : countU (handleStompMessage beh s m).2 = 0 :=
  countU_dispatchFrame beh s _ _

/-- `subscribeToDestination` on an already-mapped destination does nothing. -/
theorem subDest_some (s : ClientState) (d : List Char)
    (h : (lookupA s.subscriptions d).isSome = true) :
    subscribeToDestination s d = (s, []) := by
  unfold subscribeToDestination
  simp [h]

/-- `subscribeToDestination` on an unmapped destination with an open socket:
allocates the next id and emits the SUBSCRIBE frame. -/
theorem subDest_none (s : ClientState) (d : List Char)
    (h : lookupA s.subscriptions d = none) (hw : wsOpen s.ws = true) :
    (subscribeToDestination s d).1.subscriptions
        = setA s.subscriptions d (s.subscriptionCounter + 1)
      ∧ (subscribeToDestination s d).1.callbacks = s.callbacks
      ∧ (subscribeToDestination s d).1.marketCallbacks = s.marketCallbacks
      ∧ (subscribeToDestination s d).1.depthCallbacks = s.depthCallbacks
      ∧ (subscribeToDestination s d).1.lastTradeCallbacks = s.lastTradeCallbacks
      ∧ (subscribeToDestination s d).2
        = [Eff.sent (OutFrame.subscribeF (s.subscriptionCounter + 1) d)] := by
  unfold subscribeToDestination
  dsimp only
  rw [if_neg (by rw [h]; simp), if_pos hw]
  exact ⟨rfl, rfl, rfl, rfl, rfl, rfl⟩

theorem connect_att (s : ClientState) :
    (connect s).1.reconnectAttempts = s.reconnectAttempts := by
  unfold connect; split <;> rfl

theorem connectInternal_att (s : ClientState) :
    (connectInternal s).1.reconnectAttempts = s.reconnectAttempts := rfl

theorem sendConnect_att (s : ClientState) :
    (sendConnect s).1.reconnectAttempts = s.reconnectAttempts := by
  unfold sendConnect; split <;> rfl

theorem subDest_att (s : ClientState) (d : List Char) :
    (subscribeToDestination s d).1.reconnectAttempts = s.reconnectAttempts := by
  unfold subscribeToDestination
  dsimp only
  split
  · rfl
  · split <;> rfl

theorem subAll_att (ks : List (List Char)) : ∀ (s : ClientState) (acc : List Eff),
    (subAllKeys s ks acc).1.reconnectAttempts = s.reconnectAttempts := by
  induction ks with
  | nil => intro s acc; rfl
  | cons k rest ih =>
      intro s acc
      show (subAllKeys (subscribeToDestination s k).1 rest _).1.reconnectAttempts = _
      rw [ih, subDest_att]

theorem resub_att (s : ClientState) :
    (resubscribeAll s).1.reconnectAttempts = s.reconnectAttempts := by
  unfold resubscribeAll
  dsimp only
  rw [subAll_att, subAll_att, subAll_att, subAll_att]

theorem subscribe_att (s : ClientState) (k : List Char) (c : Nat) :
    (subscribe s k c).1.reconnectAttempts = s.reconnectAttempts := by
  unfold subscribe
  dsimp only
  split
  · rw [subDest_att]
    rfl
  · rfl

theorem unsubscribe_att (s : ClientState) (k : List Char) (c : Nat) :
    (unsubscribe s k c).1.reconnectAttempts = s.reconnectAttempts := by
  unfold unsubscribe
  dsimp only
  repeat' split
  all_goals rfl

theorem subMkt_att (s : ClientState) (k : List Char) (d l : Nat) :
    (subscribeToMarketData s k d l).1.reconnectAttempts = s.reconnectAttempts := by
  unfold subscribeToMarketData
  dsimp only
  split
  · rw [subDest_att, subDest_att]
  · rfl

theorem unsubMkt_att (s : ClientState) (k : List Char) (d l : Nat) :
    (unsubscribeFromMarketData s k d l).1.reconnectAttempts = s.reconnectAttempts := by
  unfold unsubscribeFromMarketData
  dsimp only
  repeat' split
  all_goals rfl

theorem attemptReconnect_ne_zero (s : ClientState) (h : s.reconnectAttempts ≠ 0) :
    (attemptReconnect s).1.reconnectAttempts ≠ 0 := by
  unfold attemptReconnect
  split
  · simp
  · exact h

/-- C1.  The claim says that after a disconnect followed by a successful
CONNECTED, every destination with at least one registered callback receives
exactly one re-issued SUBSCRIBE frame.  The code violates it: the
`subscriptions` map is not cleared on socket close, so `resubscribeAll`'s
`subscribeToDestination` early-returns on the stale entry and the reconnect
CONNECTED step emits zero SUBSCRIBE frames for a destination that still has
one registered callback — contradicting the code's own comment
"Resubscribe to all previous subscriptions". -/
theorem C1_no_resubscribe_after_reconnect :
    lookupA c1State.callbacks (destOf ("ACC1".data)) = some [7]
      ∧ lookupA c1State.subscriptions (destOf ("ACC1".data)) = some 1
      ∧ (step behNone (Event.messageE connectedWire) c1State).1.connected = true
      ∧ countS (destOf ("ACC1".data))
          ((step behNone (Event.messageE connectedWire) c1State).2) = 0 :=
  ⟨rfl, rfl, rfl, rfl⟩

/-- C2.  The claim says disconnect() prevents a pending reconnect timer from
ever invoking a new connection attempt.  The code violates it: no call site
ever cancels a timer, so the reconnect timer scheduled by the close event
survives disconnect() (which leaves `pendingTimers` untouched) and, when it
fires, runs `connectInternal`, constructing a fresh WebSocket. -/
theorem C2_reconnect_timer_survives_disconnect :
    (runTrace behNone c2TraceA).1.ws = none
      ∧ (runTrace behNone c2TraceA).1.pendingTimers = [1000]
      ∧ (runTrace behNone c2TraceB).1.ws = some ⟨1, WS_CONNECTING⟩
      ∧ (runTrace behNone c2TraceB).1.openTransports = [1] :=
  ⟨rfl, rfl, rfl, rfl⟩

/-- C3.  The claim says each callback invocation in a dispatch is
independently guarded, so one callback's exception cannot prevent the
remaining callbacks from running.  The code violates it:
`callbacks.forEach(callback => callback(data))` has no per-callback guard,
so when callback 1 (of the registered list [1, 2]) throws, the exception
propagates out of the forEach (to `handleStompMessage`'s catch) and
callback 2 is never invoked. -/
theorem C3_second_callback_not_invoked :
    lookupA c3State.callbacks (destOf ("ACC1".data)) = some [1, 2]
      ∧ (step behThrow1 (Event.messageE c3Wire) c3State).2 = [Eff.invoke 1 c3Json] :=
  ⟨rfl, rfl⟩

/-- C4.  Under the default configuration (base delay 1000 ms, maxAttempts 5)
the reconnection policy embodied in `attemptReconnect` waits
`1000 * 2^(n-1)` ms before attempt `n` (the current attempt count being
`n - 1`): 1000, 2000, 4000 ms for attempts 1, 2, 3; and a retry is scheduled
iff the current attempt count is strictly below 5, so no retry happens at
count 5. -/
theorem C4_backoff_policy :
    (∀ s : ClientState, s.reconnectAttempts = 0 →
        (attemptReconnect s).2 = [Eff.timerSet 1000])
      ∧ (∀ s : ClientState, s.reconnectAttempts = 1 →
          (attemptReconnect s).2 = [Eff.timerSet 2000])
      ∧ (∀ s : ClientState, s.reconnectAttempts = 2 →
          (attemptReconnect s).2 = [Eff.timerSet 4000])
      ∧ (∀ s : ClientState, s.reconnectAttempts < maxReconnectAttempts →
          (attemptReconnect s).2
              = [Eff.timerSet (reconnectDelay * 2 ^ s.reconnectAttempts)]
            ∧ (attemptReconnect s).1.reconnectAttempts = s.reconnectAttempts + 1)
      ∧ (∀ s : ClientState, maxReconnectAttempts ≤ s.reconnectAttempts →
          attemptReconnect s = (s, [])) := by
  refine ⟨?_, ?_, ?_, ?_, ?_⟩
  · intro s h
    unfold attemptReconnect
    rw [if_pos (by rw [h]; decide)]
    rw [h]
    rfl
  · intro s h
    unfold attemptReconnect
    rw [if_pos (by rw [h]; decide)]
    rw [h]
    rfl
  · intro s h
    unfold attemptReconnect
    rw [if_pos (by rw [h]; decide)]
    rw [h]
    rfl
  · intro s h
    unfold attemptReconnect
    rw [if_pos h]
    exact ⟨by simp, by simp⟩
  · intro s h
    unfold attemptReconnect
    rw [if_neg (by omega)]

/-- Witness for C4: a concrete state with attempt count 1 gets a 2000 ms
retry delay and its counter becomes 2. -/
theorem C4_backoff_policy_witness :
    (attemptReconnect stateA1).2
        = [Eff.timerSet (reconnectDelay * 2 ^ stateA1.reconnectAttempts)]
      ∧ (attemptReconnect stateA1).1.reconnectAttempts
        = stateA1.reconnectAttempts + 1 :=
  C4_backoff_policy.2.2.2.1 stateA1 (by decide)

/-- C5 counterexample.  The claim says the reconnect attempt counter is
zeroed exactly at CONNECTED-receipt steps and at no other step; but
`disconnect()` also sets it to zero: from a reachable state with counter 1,
the disconnect step (which is not a CONNECTED message step) zeroes it. -/
theorem C5_counterexample :
    ¬ (∀ (e : Event) (s : ClientState), s.reconnectAttempts ≠ 0 →
        (step behNone e s).1.reconnectAttempts = 0 →
        ∃ w, e = Event.messageE w ∧ startsWithC ("CONNECTED".data) w = true) := by
  intro h
  rcases h Event.disconnectE c5State (by decide) (by decide) with ⟨w, hw, -⟩
  exact Event.noConfusion hw

/-- C6 counterexample.  The claim says connect() is a no-op in the Opening
state (transport requested, socket still CONNECTING).  The code's guard only
checks `readyState === OPEN || connected`, so in the Opening state connect()
schedules another `connectInternal`; after the two timers fire the Session
has constructed two transports and closed neither. -/
theorem C6_counterexample :
    c6State.ws = some ⟨0, WS_CONNECTING⟩
      ∧ c6State.connected = false
      ∧ (step behNone Event.connectE c6State).2 = [Eff.timerSet 500]
      ∧ (runTrace behNone (c6Trace ++ [Event.connectE, Event.timerFireE])).1.openTransports
        = [0, 1] :=
  ⟨rfl, rfl, rfl, rfl⟩

/-- C6 amended: connect() is a no-op exactly when the guard holds, i.e. when
the transport's readyState is OPEN or the `connected` flag is set — which
covers the AwaitingAck and Connected states but not Opening. -/
theorem C6_amended_connect_guard (beh : Nat → Bool) (s : ClientState)
    (h : wsOpen s.ws = true ∨ s.connected = true) :
    step beh Event.connectE s = (s, []) := by
  show connect s = (s, [])
  unfold connect
  rcases h with h | h <;> simp [h]

/-- Witness for the amended C6: with the connected flag set, connect() does
nothing. -/
theorem C6_amended_connect_guard_witness :
    step behNone Event.connectE connFlagState = (connFlagState, []) :=
  C6_amended_connect_guard behNone connFlagState (Or.inr rfl)

/-- C8 counterexample.  The claim says removing the last callback deletes
both the callback entry and the Subscription.  The code deletes the
Subscription only inside the `if (subId && ws open)` block: with the socket
closed, the callback entry is deleted but the destination-to-id mapping
survives (and no UNSUBSCRIBE is sent). -/
theorem C8_counterexample :
    lookupA c8State.callbacks (destOf ("ACC1".data)) = some [7]
      ∧ lookupA c8State.subscriptions (destOf ("ACC1".data)) = some 1
      ∧ wsOpen c8State.ws = false
      ∧ lookupA (step behNone (Event.unsubscribeE ("ACC1".data) 7) c8State).1.callbacks
          (destOf ("ACC1".data)) = none
      ∧ lookupA (step behNone (Event.unsubscribeE ("ACC1".data) 7) c8State).1.subscriptions
          (destOf ("ACC1".data)) = some 1
      ∧ (step behNone (Event.unsubscribeE ("ACC1".data) 7) c8State).2 = [] :=
  ⟨rfl, rfl, rfl, rfl, rfl, rfl⟩

/-- C9 counterexample.  The claim says decoding the MESSAGE frame with
destination /account/ACC1/updates and the balance JSON body dispatches the
parsed object to the ACC1 callbacks.  With the frame terminated as the
spec's wire grammar (and the client's own encoder) writes it — the sentinel
byte immediately after the body — the line scan appends the sentinel to the
body, JSON parsing fails, and nothing is dispatched, although callbacks 1
and 2 are registered for ACC1. -/
theorem C9_counterexample :
    lookupA c9State.callbacks (destOf ("ACC1".data)) = some [1, 2]
      ∧ (step behNone (Event.messageE c9WireBad) c9State).2 = [] :=
  ⟨rfl, rfl⟩

/-- C10.  disconnect() is total (it never throws): from any state it leaves
a null transport handle, empties every callback registry and the
subscription map, zeroes the reconnect attempt counter, clears the connected
flag, and isConnected() is false afterwards. -/
theorem C10_disconnect_clears_everything (s : ClientState) :
    (disconnect s).1.ws = none
      ∧ (disconnect s).1.callbacks = []
      ∧ (disconnect s).1.marketCallbacks = []
      ∧ (disconnect s).1.depthCallbacks = []
      ∧ (disconnect s).1.lastTradeCallbacks = []
      ∧ (disconnect s).1.subscriptions = []
      ∧ (disconnect s).1.reconnectAttempts = 0
      ∧ (disconnect s).1.connected = false
      ∧ isConnected (disconnect s).1 = false := by
  unfold disconnect isConnected
  rcases hws : s.ws with _ | w <;>
    simp [hws, wsOpen]

/-- C5 amended: the reconnect attempt counter transitions from a nonzero
value to zero only at a step that either is the receipt of a CONNECTED frame
or is an explicit disconnect() call (the code also zeroes the counter in
`disconnect`). -/
theorem C5_amended_counter_reset (beh : Nat → Bool) (e : Event) (s : ClientState)
    (h0 : s.reconnectAttempts ≠ 0)
    (hz : (step beh e s).1.reconnectAttempts = 0) :
    e = Event.disconnectE
      ∨ ∃ w, e = Event.messageE w ∧ startsWithC ("CONNECTED".data) w = true := by
  cases e with
  | connectE =>
      rw [show step beh Event.connectE s = connect s from rfl, connect_att] at hz
      exact absurd hz h0
  | disconnectE => exact Or.inl rfl
  | subscribeE k c =>
      rw [show step beh (Event.subscribeE k c) s = subscribe s k c from rfl,
        subscribe_att] at hz
      exact absurd hz h0
  | unsubscribeE k c =>
      rw [show step beh (Event.unsubscribeE k c) s = unsubscribe s k c from rfl,
        unsubscribe_att] at hz
      exact absurd hz h0
  | subscribeMarketE k d l =>
      rw [show step beh (Event.subscribeMarketE k d l) s = subscribeToMarketData s k d l
        from rfl, subMkt_att] at hz
      exact absurd hz h0
  | unsubscribeMarketE k d l =>
      rw [show step beh (Event.unsubscribeMarketE k d l) s
        = unsubscribeFromMarketData s k d l from rfl, unsubMkt_att] at hz
      exact absurd hz h0
  | socketOpenE =>
      rcases hws : s.ws with _ | w
      · simp only [step, hws] at hz
        exact absurd hz h0
      · simp only [step, hws] at hz
        split at hz
        · rw [sendConnect_att] at hz
          exact absurd hz h0
        · exact absurd hz h0
  | socketCloseE =>
      rcases hws : s.ws with _ | w
      · simp only [step, hws] at hz
        exact absurd hz h0
      · simp only [step, hws] at hz
        split at hz
        · exact absurd hz (attemptReconnect_ne_zero _ h0)
        · exact absurd hz h0
  | messageE w =>
      by_cases hw2 : wsOpen s.ws = true
      · simp only [step] at hz
        rw [if_pos hw2] at hz
        by_cases hc : startsWithC ("CONNECTED".data) w = true
        · exact Or.inr ⟨w, rfl, hc⟩
        · unfold parseMessage at hz
          rw [if_neg hc] at hz
          by_cases hm : startsWithC ("MESSAGE".data) w = true
          · rw [if_pos hm, handleStomp_fst] at hz
            exact absurd hz h0
          · rw [if_neg hm] at hz
            exact absurd hz h0
      · simp only [step] at hz
        rw [if_neg hw2] at hz
        exact absurd hz h0
  | timerFireE =>
      rcases ht : s.pendingTimers with _ | ⟨t, rest⟩
      · simp only [step, ht] at hz
        exact absurd hz h0
      · simp only [step, ht] at hz
        rw [connectInternal_att] at hz
        exact absurd hz h0

/-- Witness for the amended C5: the state reached by one close event has
counter 1, and the disconnect() step zeroes it, so the amended claim's
hypotheses are satisfiable and its conclusion holds there. -/
theorem C5_amended_counter_reset_witness :
    c5State.reconnectAttempts ≠ 0
      ∧ (step behNone Event.disconnectE c5State).1.reconnectAttempts = 0
      ∧ (Event.disconnectE = Event.disconnectE
          ∨ ∃ w, Event.disconnectE = Event.messageE w
              ∧ startsWithC ("CONNECTED".data) w = true) :=
  ⟨by decide, by decide,
   C5_amended_counter_reset behNone Event.disconnectE c5State (by decide) (by decide)⟩

/-- C8 amended: when removeSubscriber (`unsubscribe`) removes the last
registered callback of a destination, the callback-list entry is always
deleted; the Subscription mapping is deleted and the UNSUBSCRIBE frame
referencing the freed identifier is emitted only when the transport is open
at that moment (the code checks the socket's readyState, not the session's
connected flag); with the transport not open the mapping survives and no
frame is emitted. -/
theorem C8_amended_remove_last (beh : Nat → Bool) (s : ClientState) (k : List Char)
    (c : Nat) (hcb : lookupA s.callbacks (destOf k) = some [c]) :
    lookupA ((step beh (Event.unsubscribeE k c) s).1).callbacks (destOf k) = none
      ∧ (∀ id, lookupA s.subscriptions (destOf k) = some id → id ≠ 0 →
          wsOpen s.ws = true →
          lookupA ((step beh (Event.unsubscribeE k c) s).1).subscriptions (destOf k) = none
            ∧ (step beh (Event.unsubscribeE k c) s).2
              = [Eff.sent (OutFrame.unsubscribeF id)])
      ∧ (wsOpen s.ws = false →
          lookupA ((step beh (Event.unsubscribeE k c) s).1).subscriptions (destOf k)
              = lookupA s.subscriptions (destOf k)
            ∧ (step beh (Event.unsubscribeE k c) s).2 = []) := by
  have hrf : removeFirst [c] c = [] := by simp [removeFirst]
  refine ⟨?_, ?_, ?_⟩
  · show lookupA (unsubscribe s k c).1.callbacks (destOf k) = none
    unfold unsubscribe
    dsimp only
    rw [hcb]
    dsimp only
    rw [hrf, if_pos rfl]
    rcases hsub : lookupA s.subscriptions (destOf k) with _ | id
    · exact lookupA_delA_self _ _
    · dsimp only
      split
      · exact lookupA_delA_self _ _
      · exact lookupA_delA_self _ _
  · intro id hsub hid hop
    show lookupA (unsubscribe s k c).1.subscriptions (destOf k) = none
        ∧ (unsubscribe s k c).2 = [Eff.sent (OutFrame.unsubscribeF id)]
    unfold unsubscribe
    dsimp only
    rw [hcb]
    dsimp only
    rw [hrf, if_pos rfl, hsub]
    dsimp only
    rw [if_pos ⟨hid, hop⟩]
    exact ⟨lookupA_delA_self _ _, rfl⟩
  · intro hop
    show lookupA (unsubscribe s k c).1.subscriptions (destOf k)
          = lookupA s.subscriptions (destOf k)
        ∧ (unsubscribe s k c).2 = []
    unfold unsubscribe
    dsimp only
    rw [hcb]
    dsimp only
    rw [hrf, if_pos rfl]
    rcases hsub : lookupA s.subscriptions (destOf k) with _ | id
    · dsimp only
      exact ⟨hsub, rfl⟩
    · dsimp only
      rw [if_neg (fun hcon => by
        have h2 : wsOpen s.ws = true := hcon.2
        rw [hop] at h2
        exact Bool.noConfusion h2)]
      exact ⟨hsub, rfl⟩

/-- Witness for the amended C8: in the connected reachable state the removal
of the last callback deletes the mapping and emits UNSUBSCRIBE id 1, and in
the closed-socket reachable state it emits nothing. -/
theorem C8_amended_remove_last_witness :
    (lookupA ((step behNone (Event.unsubscribeE ("ACC1".data) 7) c8OpenState).1).subscriptions
        (destOf ("ACC1".data)) = none
      ∧ (step behNone (Event.unsubscribeE ("ACC1".data) 7) c8OpenState).2
        = [Eff.sent (OutFrame.unsubscribeF 1)])
      ∧ (step behNone (Event.unsubscribeE ("ACC1".data) 7) c8State).2 = [] :=
  ⟨(C8_amended_remove_last behNone c8OpenState ("ACC1".data) 7 rfl).2.1 1 rfl
      (by decide) rfl,
   ((C8_amended_remove_last behNone c8State ("ACC1".data) 7 rfl).2.2 rfl).2⟩

/-- C9 amended: with the MESSAGE frame terminated by a newline and then the
sentinel byte (so the line scan leaves the body clean), decoding dispatches
the parsed balance object to exactly the callbacks registered for
/account/ACC1/updates, in registration order, and to no other callback; with
the sentinel directly appended to the body line (the spec's grammar and the
client's own encoder) the sentinel corrupts the body and nothing is
dispatched (the counterexample). -/
theorem C9_amended_dispatch (beh : Nat → Bool) (s : ClientState) (cbs : List Nat)
    (hbeh : ∀ c, beh c = false) (hws : wsOpen s.ws = true)
    (hcb : lookupA s.callbacks (destOf ("ACC1".data)) = some cbs) :
    (step beh (Event.messageE c9WireGood) s).2 = cbs.map (fun c => Eff.invoke c c9Json)
      ∧ (step beh (Event.messageE c9WireGood) s).1 = s := by
  have hd : (scanFrame c9WireGood).destination = destOf ("ACC1".data) := rfl
  have hb : (scanFrame c9WireGood).body = c9Body := rfl
  have hjson : jsonParse c9Body = some c9Json := rfl
  have hnc : ¬ startsWithC ("CONNECTED".data) c9WireGood = true := by decide
  have hm : startsWithC ("MESSAGE".data) c9WireGood = true := by decide
  have hne : destOf ("ACC1".data) ≠ [] := by decide
  have hbne : c9Body ≠ [] := by decide
  have hmk : ¬ hasSub (destOf ("ACC1".data)) ("/markets/".data) = true := by decide
  have hmp : ¬ startsWithC ("/market/".data) (destOf ("ACC1".data)) = true := by decide
  have hstep : step beh (Event.messageE c9WireGood) s = parseMessage beh s c9WireGood := by
    show (if wsOpen s.ws = true then parseMessage beh s c9WireGood else (s, [])) = _
    rw [if_pos hws]
  rw [hstep]
  have hpm : parseMessage beh s c9WireGood = handleStompMessage beh s c9WireGood := by
    unfold parseMessage
    rw [if_neg hnc, if_pos hm]
  rw [hpm]
  unfold handleStompMessage
  rw [hd, hb]
  unfold dispatchFrame
  rw [if_pos ⟨hne, hbne⟩, if_neg (fun hcon => hmk hcon.1), if_neg (fun hcon => hmk hcon.1),
    if_neg hmp, hjson]
  unfold notifyCallbacks
  rw [hcb]
  exact ⟨runCallbacks_all beh hbeh cbs c9Json, rfl⟩

/-- Witness for the amended C9: in the reachable state with callbacks 1 and 2
on ACC1 (and 3 on ACC2) the newline-terminated frame invokes exactly
callbacks 1 and 2 with the parsed object. -/
theorem C9_amended_dispatch_witness :
    (step behNone (Event.messageE c9WireGood) c9State).2
        = [1, 2].map (fun c => Eff.invoke c c9Json)
      ∧ (step behNone (Event.messageE c9WireGood) c9State).1 = c9State :=
  C9_amended_dispatch behNone c9State [1, 2] (fun _ => rfl) rfl rfl

/- Helper lemmas for the subscribe/unsubscribe frame-balance invariant. -/

theorem addCb_subscriptions (s : ClientState) (d : List Char) (c : Nat) :
    (addCb s d c).subscriptions = s.subscriptions := rfl

theorem addCb_ws (s : ClientState) (d : List Char) (c : Nat) :
    (addCb s d c).ws = s.ws := rfl

theorem addCb_connected (s : ClientState) (d : List Char) (c : Nat) :
    (addCb s d c).connected = s.connected := rfl

theorem addCb_callbacks (s : ClientState) (d : List Char) (c : Nat) :
    (addCb s d c).callbacks
      = setA s.callbacks d ((lookupA s.callbacks d).getD [] ++ [c]) := rfl

theorem sendConnect_state (s : ClientState) : (sendConnect s).1 = s := by
  unfold sendConnect
  split <;> rfl

theorem sendConnect_countS (d : List Char) (s : ClientState) :
    countS d (sendConnect s).2 = 0 := by
  unfold sendConnect
  split <;> rfl

theorem sendConnect_countU (s : ClientState) : countU (sendConnect s).2 = 0 := by
  unfold sendConnect
  split <;> rfl

theorem attemptReconnect_subs (s : ClientState) :
    (attemptReconnect s).1.subscriptions = s.subscriptions := by
  unfold attemptReconnect
  split <;> rfl

theorem attemptReconnect_cbs (s : ClientState) :
    (attemptReconnect s).1.callbacks = s.callbacks := by
  unfold attemptReconnect
  split <;> rfl

theorem attemptReconnect_mkt (s : ClientState) :
    (attemptReconnect s).1.marketCallbacks = s.marketCallbacks := by
  unfold attemptReconnect
  split <;> rfl

theorem attemptReconnect_dep (s : ClientState) :
    (attemptReconnect s).1.depthCallbacks = s.depthCallbacks := by
  unfold attemptReconnect
  split <;> rfl

theorem attemptReconnect_lt (s : ClientState) :
    (attemptReconnect s).1.lastTradeCallbacks = s.lastTradeCallbacks := by
  unfold attemptReconnect
  split <;> rfl

theorem attemptReconnect_countS (d : List Char) (s : ClientState) :
    countS d (attemptReconnect s).2 = 0 := by
  unfold attemptReconnect
  split <;> rfl

theorem attemptReconnect_countU (s : ClientState) :
    countU (attemptReconnect s).2 = 0 := by
  unfold attemptReconnect
  split <;> rfl

/-- Extending a run by a step that neither touches the maps of interest nor
emits counted frames preserves the invariant. -/
theorem c7Inv_extend (k : List Char) (s s2 : ClientState) (effs new : List Eff)
    (hsubs : s2.subscriptions = s.subscriptions)
    (hcb2 : s2.callbacks = s.callbacks)
    (hm : s2.marketCallbacks = s.marketCallbacks)
    (hd : s2.depthCallbacks = s.depthCallbacks)
    (hl : s2.lastTradeCallbacks = s.lastTradeCallbacks)
    (hS : countS (destOf k) new = 0) (hU : countU new = 0)
    (hI : c7Inv k s effs) : c7Inv k s2 (effs ++ new) := by
  obtain ⟨hcnt, hcb, h1, h2, h3⟩ := hI
  refine ⟨?_, ?_, ?_, ?_, ?_⟩
  · rw [countS_append, countU_append, hS, hU, hsubs]
    simpa using hcnt
  · rw [hcb2]; exact hcb
  · rw [hm]; exact h1
  · rw [hd]; exact h2
  · rw [hl]; exact h3

/-- Resubscription preserves the invariant: with the socket open, either the
destination is already mapped (no frame emitted, nothing changes) or it gets
mapped and exactly one SUBSCRIBE is emitted. -/
theorem c7_resub (k : List Char) (s : ClientState) (effs : List Eff)
    (hw : wsOpen s.ws = true) (hI : c7Inv k s effs) :
    c7Inv k (resubscribeAll s).1 (effs ++ (resubscribeAll s).2) := by
  obtain ⟨hcnt, hcbor, h1, h2, h3⟩ := hI
  rcases hcbor with hcb | ⟨l, hcb⟩
  · have hre : resubscribeAll s = (s, []) := by
      unfold resubscribeAll
      simp [hcb, h1, h2, h3, keysA, subAllKeys]
    rw [hre]
    exact ⟨by simpa using hcnt, Or.inl hcb, h1, h2, h3⟩
  · by_cases hq : (lookupA s.subscriptions (destOf k)).isSome = true
    · have hqe : subscribeToDestination s (destOf k) = (s, []) := subDest_some s _ hq
      have hre : resubscribeAll s = (s, []) := by
        unfold resubscribeAll
        simp [hcb, h1, h2, h3, keysA, subAllKeys, hqe]
      rw [hre]
      exact ⟨by simpa using hcnt, Or.inr ⟨l, hcb⟩, h1, h2, h3⟩
    · have hqn : lookupA s.subscriptions (destOf k) = none := by
        cases hx : lookupA s.subscriptions (destOf k) with
        | none => rfl
        | some v => rw [hx] at hq; simp at hq
      obtain ⟨e1, e2, e3, e4, e5, e6⟩ := subDest_none s (destOf k) hqn hw
      have hre1 : (resubscribeAll s).1 = (subscribeToDestination s (destOf k)).1 := by
        unfold resubscribeAll
        simp [hcb, h1, h2, h3, keysA, subAllKeys, e3, e4, e5]
      have hre2 : (resubscribeAll s).2 = (subscribeToDestination s (destOf k)).2 := by
        unfold resubscribeAll
        simp [hcb, h1, h2, h3, keysA, subAllKeys, e3, e4, e5]
      rw [hre1, hre2]
      refine ⟨?_, ?_, ?_, ?_, ?_⟩
      · rw [countS_append, countU_append, e6, e1]
        have hh := hcnt
        rw [hqn] at hh
        simp at hh
        simp [countS, countU, lookupA_setA_self]
        omega
      · rw [e2]
        exact Or.inr ⟨l, hcb⟩
      · rw [e3]; exact h1
      · rw [e4]; exact h2
      · rw [e5]; exact h3

/-- One allowed step preserves the frame-balance invariant. -/
theorem c7_step (beh : Nat → Bool) (k : List Char) (e : Event) (s : ClientState)
    (effs : List Eff) (he : c7Allowed k e = true) (hI : c7Inv k s effs) :
    c7Inv k (step beh e s).1 (effs ++ (step beh e s).2) := by
  obtain ⟨hcnt, hcbor, h1, h2, h3⟩ := hI
  cases e with
  | disconnectE => exact Bool.noConfusion he
  | subscribeMarketE a b c => exact Bool.noConfusion he
  | unsubscribeMarketE a b c => exact Bool.noConfusion he
  | connectE =>
      show c7Inv k (connect s).1 (effs ++ (connect s).2)
      unfold connect
      by_cases hcn : (wsOpen s.ws || s.connected) = true
      · rw [if_pos hcn]
        exact c7Inv_extend k s s effs [] rfl rfl rfl rfl rfl rfl rfl
          ⟨hcnt, hcbor, h1, h2, h3⟩
      · rw [if_neg hcn]
        exact c7Inv_extend k s _ effs _ rfl rfl rfl rfl rfl rfl rfl
          ⟨hcnt, hcbor, h1, h2, h3⟩
  | timerFireE =>
      rcases ht : s.pendingTimers with _ | ⟨t2, rest⟩ <;> simp only [step, ht]
      · exact c7Inv_extend k s s effs [] rfl rfl rfl rfl rfl rfl rfl
          ⟨hcnt, hcbor, h1, h2, h3⟩
      · exact c7Inv_extend k s _ effs _ rfl rfl rfl rfl rfl rfl rfl
          ⟨hcnt, hcbor, h1, h2, h3⟩
  | socketOpenE =>
      rcases hws2 : s.ws with _ | w2 <;> simp only [step, hws2]
      · exact c7Inv_extend k s s effs [] rfl rfl rfl rfl rfl rfl rfl
          ⟨hcnt, hcbor, h1, h2, h3⟩
      · by_cases hr : w2.readyState = WS_CONNECTING
        · rw [if_pos hr]
          exact c7Inv_extend k s _ effs _
            (by rw [sendConnect_state]) (by rw [sendConnect_state])
            (by rw [sendConnect_state]) (by rw [sendConnect_state])
            (by rw [sendConnect_state]) (sendConnect_countS _ _) (sendConnect_countU _)
            ⟨hcnt, hcbor, h1, h2, h3⟩
        · rw [if_neg hr]
          exact c7Inv_extend k s s effs [] rfl rfl rfl rfl rfl rfl rfl
            ⟨hcnt, hcbor, h1, h2, h3⟩
  | socketCloseE =>
      rcases hws2 : s.ws with _ | w2 <;> simp only [step, hws2]
      · exact c7Inv_extend k s s effs [] rfl rfl rfl rfl rfl rfl rfl
          ⟨hcnt, hcbor, h1, h2, h3⟩
      · by_cases hr : w2.readyState = WS_CLOSED
        · rw [if_neg (not_not_intro hr)]
          exact c7Inv_extend k s s effs [] rfl rfl rfl rfl rfl rfl rfl
            ⟨hcnt, hcbor, h1, h2, h3⟩
        · rw [if_pos hr]
          exact c7Inv_extend k s _ effs _
            (by rw [attemptReconnect_subs]) (by rw [attemptReconnect_cbs])
            (by rw [attemptReconnect_mkt]) (by rw [attemptReconnect_dep])
            (by rw [attemptReconnect_lt]) (attemptReconnect_countS _ _)
            (attemptReconnect_countU _) ⟨hcnt, hcbor, h1, h2, h3⟩
  | messageE w =>
      by_cases hw2 : wsOpen s.ws = true
      · simp only [step]
        rw [if_pos hw2]
        by_cases hc : startsWithC ("CONNECTED".data) w = true
        · unfold parseMessage
          rw [if_pos hc]
          exact c7_resub k _ effs hw2 ⟨hcnt, hcbor, h1, h2, h3⟩
        · by_cases hm : startsWithC ("MESSAGE".data) w = true
          · unfold parseMessage
            rw [if_neg hc, if_pos hm]
            exact c7Inv_extend k s _ effs _
              (by rw [handleStomp_fst]) (by rw [handleStomp_fst])
              (by rw [handleStomp_fst]) (by rw [handleStomp_fst])
              (by rw [handleStomp_fst]) (countS_handleStomp _ _ _ _)
              (countU_handleStomp _ _ _) ⟨hcnt, hcbor, h1, h2, h3⟩
          · unfold parseMessage
            rw [if_neg hc, if_neg hm]
            exact c7Inv_extend k s s effs [] rfl rfl rfl rfl rfl rfl rfl
              ⟨hcnt, hcbor, h1, h2, h3⟩
      · simp only [step]
        rw [if_neg hw2]
        exact c7Inv_extend k s s effs [] rfl rfl rfl rfl rfl rfl rfl
          ⟨hcnt, hcbor, h1, h2, h3⟩
  | subscribeE k2 c =>
      have hk : k2 = k := eq_of_beq he
      subst hk
      show c7Inv k2 (subscribe s k2 c).1 (effs ++ (subscribe s k2 c).2)
      unfold subscribe
      dsimp only
      simp only [addCb_connected, addCb_ws]
      by_cases hcon : (s.connected && wsOpen s.ws) = true
      · rw [if_pos hcon]
        have hw : wsOpen s.ws = true := by
          have hcc := hcon
          simp [Bool.and_eq_true] at hcc
          exact hcc.2
        by_cases hq : (lookupA s.subscriptions (destOf k2)).isSome = true
        · have hq2 : (lookupA (addCb s (destOf k2) c).subscriptions (destOf k2)).isSome
              = true := hq
          rw [subDest_some _ _ hq2]
          refine ⟨?_, ?_, ?_, ?_, ?_⟩
          · simpa [addCb_subscriptions] using hcnt
          · rw [show ((addCb s (destOf k2) c, ([] : List Eff))).1.callbacks
                = (addCb s (destOf k2) c).callbacks from rfl, addCb_callbacks]
            rcases hcbor with hcb | ⟨l, hcb⟩
            · refine Or.inr ⟨[c], ?_⟩
              rw [hcb]
              simp [setA, lookupA]
            · refine Or.inr ⟨l ++ [c], ?_⟩
              rw [hcb]
              simp [setA, lookupA]
          · exact h1
          · exact h2
          · exact h3
        · have hqn : lookupA s.subscriptions (destOf k2) = none := by
            cases hx : lookupA s.subscriptions (destOf k2) with
            | none => rfl
            | some v => rw [hx] at hq; simp at hq
          have hqn2 : lookupA (addCb s (destOf k2) c).subscriptions (destOf k2)
              = none := hqn
          have hw2 : wsOpen (addCb s (destOf k2) c).ws = true := hw
          obtain ⟨e1, e2, e3, e4, e5, e6⟩ :=
            subDest_none (addCb s (destOf k2) c) (destOf k2) hqn2 hw2
          refine ⟨?_, ?_, ?_, ?_, ?_⟩
          · rw [countS_append, countU_append, e6, e1]
            have hh := hcnt
            rw [hqn] at hh
            simp at hh
            simp [countS, countU, lookupA_setA_self]
            omega
          · rw [e2, addCb_callbacks]
            rcases hcbor with hcb | ⟨l, hcb⟩
            · refine Or.inr ⟨[c], ?_⟩
              rw [hcb]
              simp [setA, lookupA]
            · refine Or.inr ⟨l ++ [c], ?_⟩
              rw [hcb]
              simp [setA, lookupA]
          · rw [e3]; exact h1
          · rw [e4]; exact h2
          · rw [e5]; exact h3
      · rw [if_neg hcon]
        refine ⟨?_, ?_, ?_, ?_, ?_⟩
        · simpa [addCb_subscriptions] using hcnt
        · rw [show ((addCb s (destOf k2) c, ([] : List Eff))).1.callbacks
            = (addCb s (destOf k2) c).callbacks from rfl, addCb_callbacks]
          rcases hcbor with hcb | ⟨l, hcb⟩
          · refine Or.inr ⟨[c], ?_⟩
            rw [hcb]
            simp [setA, lookupA]
          · refine Or.inr ⟨l ++ [c], ?_⟩
            rw [hcb]
            simp [setA, lookupA]
        · exact h1
        · exact h2
        · exact h3
  | unsubscribeE k2 c =>
      have hk : k2 = k := eq_of_beq he
      subst hk
      show c7Inv k2 (unsubscribe s k2 c).1 (effs ++ (unsubscribe s k2 c).2)
      unfold unsubscribe
      dsimp only
      rcases hcbor with hcb | ⟨l, hcb⟩
      · rw [hcb]
        dsimp only [lookupA]
        exact c7Inv_extend k2 s s effs [] rfl rfl rfl rfl rfl rfl rfl
          ⟨hcnt, Or.inl hcb, h1, h2, h3⟩
      · rw [hcb]
        rw [show lookupA [(destOf k2, l)] (destOf k2) = some l from by simp [lookupA]]
        dsimp only
        by_cases hl1 : removeFirst l c = []
        · rw [if_pos hl1]
          have hdel : delA [(destOf k2, l)] (destOf k2) = [] := by simp [delA]
          rcases hq2 : lookupA s.subscriptions (destOf k2) with _ | id
          · dsimp only
            refine ⟨?_, Or.inl hdel, h1, h2, h3⟩
            have hh := hcnt
            rw [hq2] at hh
            simpa [hq2] using hh
          · dsimp only
            by_cases hcond : id ≠ 0 ∧ wsOpen s.ws = true
            · rw [if_pos hcond]
              refine ⟨?_, Or.inl hdel, h1, h2, h3⟩
              rw [countS_append, countU_append]
              have hh := hcnt
              rw [hq2] at hh
              simp at hh
              simp [countS, countU, lookupA_delA_self]
              omega
            · rw [if_neg hcond]
              refine ⟨?_, Or.inl hdel, h1, h2, h3⟩
              have hh := hcnt
              rw [hq2] at hh
              simpa [hq2] using hh
        · rw [if_neg hl1]
          refine ⟨?_, Or.inr ⟨removeFirst l c, by simp [setA]⟩, h1, h2, h3⟩
          simpa using hcnt

/-- Running an allowed trace preserves the frame-balance invariant. -/
theorem c7_run (beh : Nat → Bool) (k : List Char) :
    ∀ (t : List Event) (s : ClientState) (effs : List Eff),
      (∀ e ∈ t, c7Allowed k e = true) → c7Inv k s effs →
      c7Inv k (runFrom beh s effs t).1 (runFrom beh s effs t).2 := by
  intro t
  induction t with
  | nil => intro s effs _ hI; exact hI
  | cons e rest ih =>
      intro s effs hall hI
      have hstep := c7_step beh k e s effs (hall e (List.mem_cons_self e rest)) hI
      exact ih (step beh e s).1 (effs ++ (step beh e s).2)
        (fun e2 he2 => hall e2 (List.mem_cons_of_mem e he2)) hstep

/-- C7.  For every sequence of subscribe/unsubscribe calls on one fixed
account destination — interleaved with arbitrary transport open/close
events, inbound frames and timer firings, but no disconnect() call and no
market-data calls, which the claim does not range over — the number of
SUBSCRIBE frames emitted for that destination equals the number of
UNSUBSCRIBE frames emitted plus at most one: at most one Subscription is
open for the destination at any time. -/
theorem C7_subscribe_unsubscribe_balance (beh : Nat → Bool) (k : List Char)
    (t : List Event) (ht : ∀ e ∈ t, c7Allowed k e = true) :
    countS (destOf k) (runTrace beh t).2 = countU (runTrace beh t).2
      ∨ countS (destOf k) (runTrace beh t).2 = countU (runTrace beh t).2 + 1 := by
  have hInit : c7Inv k initState [] := by
    refine ⟨?_, Or.inl rfl, rfl, rfl, rfl⟩
    simp [countS, countU, lookupA, initState]
  have h := (c7_run beh k t initState [] ht hInit).1
  by_cases hq2 : (lookupA (runFrom beh initState [] t).1.subscriptions (destOf k)).isSome
      = true
  · rw [if_pos hq2] at h
    exact Or.inr h
  · rw [if_neg hq2] at h
    exact Or.inl (by simpa using h)

/-- Witness for C7: a concrete trace (connect, open, CONNECTED, subscribe,
unsubscribe, subscribe again) satisfies the alphabet restriction; the
balance holds on its emissions. -/
theorem C7_subscribe_unsubscribe_balance_witness :
    countS (destOf ("ACC1".data)) (runTrace behNone c7TraceEx).2
        = countU (runTrace behNone c7TraceEx).2
      ∨ countS (destOf ("ACC1".data)) (runTrace behNone c7TraceEx).2
        = countU (runTrace behNone c7TraceEx).2 + 1 :=
  C7_subscribe_unsubscribe_balance behNone ("ACC1".data) c7TraceEx (by decide)

end StompClient
